import Mathlib

/-!
Verification of the Impeller Gaussian blur filter
(`impeller/entity/contents/filters/gaussian_blur_filter_contents.cc`).

Scalars are embedded as rationals; geometry collaborator types (matrices,
rectangles, points) that live outside the translated source file are modelled
from the specification's description of them.
-/

namespace GaussianBlur

/-- Modelled from the spec: scalars are local-space real values; we embed the
`Scalar` floating-point type as the rationals. -/
abbrev Scalar := ℚ

/-- Modelled from the spec: a 2-D point / vector (`Point` = `Vector2`). -/
structure V2 where
  x : Scalar
  y : Scalar
deriving DecidableEq

/-- Modelled from the spec: a 3-D vector (`Vector3`). -/
structure V3 where
  x : Scalar
  y : Scalar
  z : Scalar
deriving DecidableEq

instance : Add V2 := ⟨fun a b => ⟨a.x + b.x, a.y + b.y⟩⟩

instance : Sub V2 := ⟨fun a b => ⟨a.x - b.x, a.y - b.y⟩⟩

instance : Neg V2 := ⟨fun a => ⟨-a.x, -a.y⟩⟩

/-- Componentwise product of two 2-D vectors. -/
instance : Mul V2 := ⟨fun a b => ⟨a.x * b.x, a.y * b.y⟩⟩

/-- Componentwise quotient of two 2-D vectors. -/
instance : Div V2 := ⟨fun a b => ⟨a.x / b.x, a.y / b.y⟩⟩

/-- Modelled from the spec: componentwise absolute value (`Vector2.Abs`). -/
def V2.abs (a : V2) : V2 := ⟨|a.x|, |a.y|⟩

/-- Modelled from the spec: componentwise absolute value (`Vector3.Abs`). -/
def V3.abs (a : V3) : V3 := ⟨|a.x|, |a.y|, |a.z|⟩

/-- Modelled from the spec: a 4×4 transform matrix (`impeller::Matrix`); `m r c`
is the entry in row `r`, column `c`. -/
structure M4 where
  m : Fin 4 → Fin 4 → Scalar

instance : DecidableEq M4 := fun A B =>
  decidable_of_iff (A.m = B.m) (by cases A; cases B; simp)

/-- Build a matrix from its sixteen entries in row-major order. -/
def m4 (a00 a01 a02 a03 a10 a11 a12 a13 a20 a21 a22 a23 a30 a31 a32 a33 :
    Scalar) : M4 :=
  ⟨fun r c =>
    match r, c with
    | 0, 0 => a00 | 0, 1 => a01 | 0, 2 => a02 | 0, 3 => a03
    | 1, 0 => a10 | 1, 1 => a11 | 1, 2 => a12 | 1, 3 => a13
    | 2, 0 => a20 | 2, 1 => a21 | 2, 2 => a22 | 2, 3 => a23
    | 3, 0 => a30 | 3, 1 => a31 | 3, 2 => a32 | 3, 3 => a33⟩

/-- Modelled from the spec: matrix composition (`Matrix::operator*(Matrix)`),
column-vector convention. -/
def M4.mul (A B : M4) : M4 :=
  ⟨fun r c =>
    A.m r 0 * B.m 0 c + A.m r 1 * B.m 1 c + A.m r 2 * B.m 2 c +
      A.m r 3 * B.m 3 c⟩

instance : Mul M4 := ⟨M4.mul⟩

/-- Modelled from the spec: the identity transform. -/
def M4.id : M4 := m4 1 0 0 0 0 1 0 0 0 0 1 0 0 0 0 1

/-- Modelled from the spec: `Matrix::MakeTranslation`. -/
def makeTranslation (t : V3) : M4 :=
  m4 1 0 0 t.x 0 1 0 t.y 0 0 1 t.z 0 0 0 1

/-- Modelled from the spec: `Matrix::MakeScale`. -/
def makeScale (s : V3) : M4 :=
  m4 s.x 0 0 0 0 s.y 0 0 0 0 s.z 0 0 0 0 1

/-- Modelled from the spec: `Matrix::Basis()` — the linear (non-translating,
non-perspective) part of the transform. -/
def M4.Basis (A : M4) : M4 :=
  ⟨fun r c =>
    match r, c with
    | 3, 3 => 1
    | 3, _ => 0
    | _, 3 => 0
    | r, c => A.m r c⟩

/-- Modelled from the spec: transforming a 2-D point by a 4×4 matrix
(`Matrix::operator*(Point)`), with homogeneous divide; a zero `w` yields the
zero point, as in the source. -/
def M4.transformPoint (A : M4) (p : V2) : V2 :=
  let w := A.m 3 0 * p.x + A.m 3 1 * p.y + A.m 3 3
  ⟨(A.m 0 0 * p.x + A.m 0 1 * p.y + A.m 0 3) * w⁻¹,
   (A.m 1 0 * p.x + A.m 1 1 * p.y + A.m 1 3) * w⁻¹⟩

/-- Modelled from the spec: transforming a 3-D vector by a 4×4 matrix
(`Matrix::operator*(Vector3)`), with homogeneous divide. -/
def M4.transformV3 (A : M4) (v : V3) : V3 :=
  let w := A.m 3 0 * v.x + A.m 3 1 * v.y + A.m 3 2 * v.z + A.m 3 3
  ⟨(A.m 0 0 * v.x + A.m 0 1 * v.y + A.m 0 2 * v.z + A.m 0 3) * w⁻¹,
   (A.m 1 0 * v.x + A.m 1 1 * v.y + A.m 1 2 * v.z + A.m 1 3) * w⁻¹,
   (A.m 2 0 * v.x + A.m 2 1 * v.y + A.m 2 2 * v.z + A.m 2 3) * w⁻¹⟩

/-- A matrix has no perspective component when its bottom row is `(0,0,0,1)`,
as is the case for every 2-D affine transform. -/
def M4.NoPerspective (A : M4) : Prop :=
  A.m 3 0 = 0 ∧ A.m 3 1 = 0 ∧ A.m 3 2 = 0 ∧ A.m 3 3 = 1

instance (A : M4) : Decidable A.NoPerspective := by
  unfold M4.NoPerspective; infer_instance

/-- Modelled from the spec: an axis-aligned rectangle in local space
(the `Bounded` alternative of `CoverageRect`). -/
structure Rect where
  left : Scalar
  top : Scalar
  right : Scalar
  bottom : Scalar
deriving DecidableEq

/-- Modelled from the spec: `Rect::Expand(Point)` moves every side outward by
the given per-axis amount (a negative amount moves it inward). -/
def Rect.expand (r : Rect) (p : V2) : Rect :=
  ⟨r.left - p.x, r.top - p.y, r.right + p.x, r.bottom + p.y⟩

/-- Modelled from the spec: a quadrilateral of four points, in the vertex
order used by the source (top-left, top-right, bottom-left, bottom-right). -/
structure Quad where
  p0 : V2
  p1 : V2
  p2 : V2
  p3 : V2
deriving DecidableEq

/-- Modelled from the spec: `Matrix::Transform(Quad)` transforms each corner. -/
def M4.transformQuad (A : M4) (q : Quad) : Quad :=
  ⟨A.transformPoint q.p0, A.transformPoint q.p1,
   A.transformPoint q.p2, A.transformPoint q.p3⟩

/-- Following the spec's wording for the gutter: a point moved away from
`center` by the per-axis `factor` — the expansion of a figure about a center
point. -/
def ExpandPointAbout (center factor p : V2) : V2 :=
  center + factor * (p - center)

/-- Following the spec's wording: a quad expanded about a center point by a
per-axis factor. -/
def ExpandQuadAbout (center factor : V2) (q : Quad) : Quad :=
  ⟨ExpandPointAbout center factor q.p0, ExpandPointAbout center factor q.p1,
   ExpandPointAbout center factor q.p2, ExpandPointAbout center factor q.p3⟩

/-- The claim's notion of "the quad's own center": the mean of its corners. -/
def QuadCenter (q : Quad) : V2 :=
  ⟨(q.p0.x + q.p1.x + q.p2.x + q.p3.x) / 4,
   (q.p0.y + q.p1.y + q.p2.y + q.p3.y) / 4⟩

/-- Modelled from the spec: the near-zero threshold constant `kEhCloseEnough`
treating sub-epsilon sigma as "no blur"; its value is `1e-6`. -/
def kEhCloseEnough : Scalar := 1 / 1000000

/-- `GaussianBlurFilterContents::ScaleSigma`: limit sigma from above at 500 and
apply the compensation polynomial. -/
def ScaleSigma (sigma : Scalar) : Scalar :=
  let clamped := min sigma 500
  let a : Scalar := 34 / 10000000
  let b : Scalar := -34 / 10000
  let c : Scalar := 1
  let scalar := c + b * clamped + a * clamped * clamped
  clamped * scalar

/-- `GaussianBlurFilterContents::CalculateScale`: downsample factor selection. -/
def CalculateScale (sigma : Scalar) : Scalar :=
  if sigma ≤ 4 then 1 else 4 / sigma

/-- Rounding to the nearest integer, halves away from zero (C `round`), used
for the subpass pixel size. -/
def roundHalfAway (q : Scalar) : ℤ :=
  if q < 0 then -⌊-q + 1 / 2⌋ else ⌊q + 1 / 2⌋

/-- Modelled from the spec: integer pixel size of a texture (`ISize`). -/
structure ISz where
  width : ℤ
  height : ℤ
deriving DecidableEq

/-- Modelled from the spec: an image resource. Upstream images carry an
identifier; subpass outputs are fresh images of the requested size. -/
inductive Texture where
  | upstream (id : ℕ) (size : ISz)
  | subpassOut (size : ISz)
deriving DecidableEq

/-- `Texture::GetSize`. -/
def Texture.GetSize : Texture → ISz
  | .upstream _ s => s
  | .subpassOut s => s

/-- Min/mag filter modes of a sampler. -/
inductive MinMagFilter where
  | kNearest
  | kLinear
deriving DecidableEq

/-- Per-axis sampler address modes. -/
inductive SamplerAddressMode where
  | kClampToEdge
  | kRepeat
  | kMirror
  | kDecal
deriving DecidableEq

/-- `Entity::TileMode`: sampling behavior outside unit bounds. -/
inductive TileMode where
  | kClamp
  | kRepeat
  | kMirror
  | kDecal
deriving DecidableEq

/-- Modelled from the spec: a sampler descriptor (filter mode and per-axis
address mode). -/
structure SamplerDescriptor where
  min_filter : MinMagFilter
  mag_filter : MinMagFilter
  width_address_mode : SamplerAddressMode
  height_address_mode : SamplerAddressMode
deriving DecidableEq

/-- `MakeSamplerDescriptor` from the anonymous namespace of the source. -/
def MakeSamplerDescriptor (filter : MinMagFilter)
    (address_mode : SamplerAddressMode) : SamplerDescriptor :=
  { min_filter := filter
    mag_filter := filter
    width_address_mode := address_mode
    height_address_mode := address_mode }

/-- `SetTileMode` from the source: adjusts a sampler descriptor's address
modes for the entity tile mode; decal is applied only when the device
supports the decal sampler address mode. -/
def SetTileMode (descriptor : SamplerDescriptor) (supportsDecal : Bool)
    (tile_mode : TileMode) : SamplerDescriptor :=
  match tile_mode with
  | .kDecal =>
      if supportsDecal then
        { descriptor with
            width_address_mode := .kDecal, height_address_mode := .kDecal }
      else descriptor
  | .kClamp =>
      { descriptor with
          width_address_mode := .kClampToEdge
          height_address_mode := .kClampToEdge }
  | .kMirror =>
      { descriptor with
          width_address_mode := .kMirror, height_address_mode := .kMirror }
  | .kRepeat =>
      { descriptor with
          width_address_mode := .kRepeat, height_address_mode := .kRepeat }

/-- Modelled from the spec: an `InputSnapshot` / `OutputSnapshot` — image
resource, placement transform (image space → local space), sampler
descriptor, and opacity. -/
structure Snapshot where
  texture : Texture
  transform : M4
  sampler_descriptor : SamplerDescriptor
  opacity : Scalar
deriving DecidableEq

/-- Modelled from the spec: the parts of the scene-graph entity the filter
reads — its transform, blend mode, and clip depth. Blend modes are opaque
tags here. -/
structure EntityIn where
  transform : M4
  blendMode : ℕ
  clipDepth : ℕ

/-- Modelled from the spec: the entity the filter returns,
`Entity::FromSnapshot(snapshot, blend_mode, clip_depth)`. -/
structure EntityOut where
  snapshot : Snapshot
  blendMode : ℕ
  clipDepth : ℕ
deriving DecidableEq

/-- Modelled from the spec: an upstream filter input collaborator. Its
snapshot depends on the coverage limit it is given; its coverage may be
absent (unbounded); `transform` stands for `GetTransform(entity)` and
`localTransform` for `GetLocalTransform(entity)`. -/
structure FilterInput where
  snapshotAt : Option Rect → Option Snapshot
  coverage : Option Rect
  transform : M4
  localTransform : M4

/-- `GaussianBlurFragmentShader::BlurInfo`: per-pass shader parameters. -/
structure BlurInfo where
  blur_uv_offset : V2
  blur_sigma : Scalar
  blur_radius : Scalar
  step_size : Scalar
deriving DecidableEq

instance : HMul V2 Scalar V2 := ⟨fun v s => ⟨v.x * s, v.y * s⟩⟩

instance : HMul Scalar V2 V2 := ⟨fun s v => ⟨s * v.x, s * v.y⟩⟩

/-- `ExpandCoverageHint` from the source: expand the hint (when present) by
the absolute value of the padding transformed to local space. -/
def ExpandCoverageHint (coverage_hint : Option Rect)
    (source_to_local_transform : M4) (padding : V2) : Option Rect :=
  match coverage_hint with
  | none => none
  | some hint =>
      some (hint.expand (source_to_local_transform.transformPoint padding).abs)

/-- `MakeAnchorScale` from the source: scale about an anchor point. -/
def MakeAnchorScale (anchor : V2) (scale : V2) : M4 :=
  makeTranslation ⟨anchor.x, anchor.y, 0⟩ * makeScale ⟨scale.x, scale.y, 1⟩ *
    makeTranslation ⟨-anchor.x, -anchor.y, 0⟩

/-- The guttered UV quad bound by `MakeDownsampleSubpass` (source lines
110–114): the UV quad scaled about the anchor `(0.5, 0.5)` by
`(texture_size + padding * 2) / texture_size`. -/
def DownsampleGutteredUVs (input_texture : Texture) (padding : V2)
    (uvs : Quad) : Quad :=
  let texture_size : V2 :=
    ⟨(input_texture.GetSize.width : Scalar),
     (input_texture.GetSize.height : Scalar)⟩
  (MakeAnchorScale ⟨1 / 2, 1 / 2⟩
      ((texture_size + padding * (2 : Scalar)) / texture_size)).transformQuad
    uvs

/-- `MakeDownsampleSubpass` from the source: records a blit of the guttered
UV quad and returns the fresh subpass texture of exactly the requested size,
together with the number of subpasses created (always one). The GPU drawing
itself is the external renderer collaborator's effect and is outside this
embedding; the UV geometry it binds is `DownsampleGutteredUVs`. -/
def MakeDownsampleSubpass (input_texture : Texture)
    (sampler_descriptor : SamplerDescriptor) (uvs : Quad)
    (subpass_size : ISz) (padding : V2) (tile_mode : TileMode) :
    Texture × ℕ :=
  let _guttered := DownsampleGutteredUVs input_texture padding uvs
  let _sampler := SetTileMode sampler_descriptor true tile_mode
  (Texture.subpassOut subpass_size, 1)

/-- `MakeBlurSubpass` from the source: below the near-zero sigma threshold it
returns the input texture unchanged and creates nothing; otherwise it renders
a one-axis blur into a fresh texture of the input's size. The pair's second
component counts subpasses created. -/
def MakeBlurSubpass (input_texture : Texture)
    (sampler_descriptor : SamplerDescriptor) (tile_mode : TileMode)
    (blur_info : BlurInfo) : Texture × ℕ :=
  if blur_info.blur_sigma < kEhCloseEnough then
    (input_texture, 0)
  else
    (Texture.subpassOut input_texture.GetSize, 1)

/-- `GaussianBlurFilterContents::CalculateUVs`: transform the snapshot rect
through the input's local transform, then into UV space. -/
def CalculateUVs (filter_input : FilterInput) (texture_size : ISz) : Quad :=
  let input_transform := filter_input.localTransform
  let w : Scalar := (texture_size.width : Scalar)
  let h : Scalar := (texture_size.height : Scalar)
  let coverage_quad :=
    input_transform.transformQuad ⟨⟨0, 0⟩, ⟨w, 0⟩, ⟨0, h⟩, ⟨w, h⟩⟩
  let uv_transform := makeScale ⟨1 / w, 1 / h, 1⟩
  uv_transform.transformQuad coverage_quad

/-- `GaussianBlurFilterContents::GetFilterSourceCoverage`. The collaborator
`CalculateBlurRadius` (sigma → pixel radius, defined outside this file) is
passed in as `rad`. -/
def GetFilterSourceCoverage (rad : Scalar → Scalar)
    (sigma_x sigma_y : Scalar) (effect_transform : M4)
    (output_limit : Rect) : Option Rect :=
  let scaled_sigma : V2 := ⟨ScaleSigma sigma_x, ScaleSigma sigma_y⟩
  let blur_radius : V2 := ⟨rad scaled_sigma.x, rad scaled_sigma.y⟩
  let blur_radii :=
    effect_transform.Basis.transformV3 ⟨blur_radius.x, blur_radius.y, 0⟩
  some (output_limit.expand ⟨blur_radii.x, blur_radii.y⟩)

/-- `GaussianBlurFilterContents::GetFilterCoverage`. -/
def GetFilterCoverage (rad : Scalar → Scalar) (sigma_x sigma_y : Scalar)
    (inputs : List FilterInput) (effect_transform : M4) : Option Rect :=
  match inputs with
  | [] => none
  | input :: _ =>
      match input.coverage with
      | none => none
      | some input_coverage =>
          let scaled_sigma : V2 := ⟨ScaleSigma sigma_x, ScaleSigma sigma_y⟩
          let blur_radius : V2 := ⟨rad scaled_sigma.x, rad scaled_sigma.y⟩
          let blur_radii :=
            ((input.transform.Basis * effect_transform.Basis).transformV3
                ⟨blur_radius.x, blur_radius.y, 0⟩).abs
          some (input_coverage.expand ⟨blur_radii.x, blur_radii.y⟩)

/-- The per-axis padding computed by `RenderFilter`:
`ceil(CalculateBlurRadius(ScaleSigma(sigma)))` per axis. -/
def BlurPadding (rad : Scalar → Scalar) (sigma_x sigma_y : Scalar) : V2 :=
  ⟨(⌈rad (ScaleSigma sigma_x)⌉ : Scalar), (⌈rad (ScaleSigma sigma_y)⌉ : Scalar)⟩

/-- The downsample scale selected by `RenderFilter`: the minimum of the two
per-axis `CalculateScale` values of the scaled sigmas. -/
def DesiredScalar (sigma_x sigma_y : Scalar) : Scalar :=
  min (CalculateScale (ScaleSigma sigma_x)) (CalculateScale (ScaleSigma sigma_y))

/-- The padded source size computed by `RenderFilter`:
`texture size + 2 * padding` per axis. -/
def PaddedSize (texture_size : ISz) (padding : V2) : V2 :=
  ⟨(texture_size.width : Scalar), (texture_size.height : Scalar)⟩ +
    (2 : Scalar) * padding

/-- The subpass pixel size computed by `RenderFilter`: the padded size scaled
by the downsample scalar, rounded to integers. -/
def SubpassSize (texture_size : ISz) (padding : V2)
    (desired_scalar : Scalar) : ISz :=
  let downsampled_size :=
    PaddedSize texture_size padding * (⟨desired_scalar, desired_scalar⟩ : V2)
  ⟨roundHalfAway downsampled_size.x, roundHalfAway downsampled_size.y⟩

/-- `GaussianBlurFilterContents::RenderFilter`. Returns the produced entity
(or `none`) paired with the number of subpasses created. The upstream
snapshot collaborator is `input.snapshotAt`; `rad` is the external
`CalculateBlurRadius` collaborator. -/
def RenderFilter (rad : Scalar → Scalar) (sigma_x sigma_y : Scalar)
    (tile_mode : TileMode) (inputs : List FilterInput) (entity : EntityIn)
    (effect_transform : M4) (coverage_hint : Option Rect) :
    Option EntityOut × ℕ :=
  match inputs with
  | [] => (none, 0)
  | input :: _ =>
      let scaled_sigma : V2 := ⟨ScaleSigma sigma_x, ScaleSigma sigma_y⟩
      let blur_radius : V2 := ⟨rad scaled_sigma.x, rad scaled_sigma.y⟩
      let padding : V2 :=
        ⟨(⌈blur_radius.x⌉ : Scalar), (⌈blur_radius.y⌉ : Scalar)⟩
      let expanded_coverage_hint :=
        ExpandCoverageHint coverage_hint (entity.transform * effect_transform)
          padding
      match input.snapshotAt expanded_coverage_hint with
      | none => (none, 0)
      | some input_snapshot =>
          if scaled_sigma.x < kEhCloseEnough ∧
              scaled_sigma.y < kEhCloseEnough then
            (some ⟨input_snapshot, entity.blendMode, entity.clipDepth⟩, 0)
          else
            let desired_scalar :=
              min (CalculateScale scaled_sigma.x)
                (CalculateScale scaled_sigma.y)
            let padding_v := padding
            let texture_size := input_snapshot.texture.GetSize
            let padded_size := PaddedSize texture_size padding_v
            let subpass_size := SubpassSize texture_size padding_v desired_scalar
            let effective_scalar : V2 :=
              ⟨(subpass_size.width : Scalar) / padded_size.x,
               (subpass_size.height : Scalar) / padded_size.y⟩
            let uvs := CalculateUVs input texture_size
            let pass1 :=
              MakeDownsampleSubpass input_snapshot.texture
                input_snapshot.sampler_descriptor uvs subpass_size padding_v
                tile_mode
            let pass1_pixel_size : V2 :=
              ⟨1 / (pass1.1.GetSize.width : Scalar),
               1 / (pass1.1.GetSize.height : Scalar)⟩
            let pass2 :=
              MakeBlurSubpass pass1.1 input_snapshot.sampler_descriptor
                tile_mode
                ⟨⟨0, pass1_pixel_size.y⟩, scaled_sigma.y * effective_scalar.y,
                 blur_radius.y * effective_scalar.y, 1⟩
            let pass3 :=
              MakeBlurSubpass pass2.1 input_snapshot.sampler_descriptor
                tile_mode
                ⟨⟨pass1_pixel_size.x, 0⟩, scaled_sigma.x * effective_scalar.x,
                 blur_radius.x * effective_scalar.x, 1⟩
            let sampler_desc :=
              MakeSamplerDescriptor .kLinear .kClampToEdge
            (some ⟨⟨pass3.1,
                    input_snapshot.transform *
                      makeTranslation ⟨-padding_v.x, -padding_v.y, 0⟩ *
                      makeScale
                        ⟨1 / effective_scalar.x, 1 / effective_scalar.y, 1⟩,
                    sampler_desc, input_snapshot.opacity⟩,
                   entity.blendMode, entity.clipDepth⟩,
             pass1.2 + pass2.2 + pass3.2)

/-- Modelled from the spec: the external `CalculateBlurRadius` collaborator —
"returns the minimal pixel radius capturing the effective kernel mass for a
given standard deviation" — instantiated for concrete witnesses with the
three-sigma rule. -/
def specBlurRadius : Scalar → Scalar := fun sigma => 3 * sigma

/-- A sample upstream snapshot over a 100×1 texture with identity placement. -/
def sampleSnapshot : Snapshot :=
  { texture := Texture.upstream 0 ⟨100, 1⟩
    transform := M4.id
    sampler_descriptor := MakeSamplerDescriptor .kLinear .kClampToEdge
    opacity := 1 }

/-- A sample filter input that always yields `sampleSnapshot` and has a
bounded coverage rectangle. -/
def sampleInput : FilterInput :=
  { snapshotAt := fun _ => some sampleSnapshot
    coverage := some ⟨0, 0, 100, 1⟩
    transform := M4.id
    localTransform := M4.id }

/-- A sample filter input whose upstream snapshot is unavailable and whose
coverage is unbounded. -/
def emptyInput : FilterInput :=
  { snapshotAt := fun _ => none
    coverage := none
    transform := M4.id
    localTransform := M4.id }

/-- A sample scene entity with identity transform, blend mode tag 3 and clip
depth 5. -/
def sampleEntity : EntityIn :=
  { transform := M4.id, blendMode := 3, clipDepth := 5 }

/-- Claim C3, counterexample: `ScaleSigma` does not clamp negative sigmas to
zero — `ScaleSigma (-1)` differs from `ScaleSigma 0 = 0`, because the source
only limits sigma from above (`std::min(sigma, 500.0f)`). -/
theorem scaleSigma_neg_one_not_zero :
    ScaleSigma (-1) ≠ ScaleSigma 0 ∧ ScaleSigma (-1) ≠ 0 := by
  constructor <;> norm_num [ScaleSigma]

/-- Claim C3 (amended): `ScaleSigma` clamps sigma only from above at 500,
then returns `s·(1 + b·s + a·s²)` with `a = 3.4e-6`, `b = -3.4e-3` applied to
the clamped value `s = min(sigma, 500)`; in particular `ScaleSigma 0 = 0` and
`ScaleSigma sigma = ScaleSigma 500` for `sigma > 500`; negative sigmas are
not clamped. -/
theorem scaleSigma_spec (sigma : Scalar) :
    ScaleSigma sigma =
      min sigma 500 *
        (1 + (-34 / 10000) * min sigma 500 +
          (34 / 10000000) * (min sigma 500) ^ 2) ∧
    (500 < sigma → ScaleSigma sigma = ScaleSigma 500) ∧
    ScaleSigma 0 = 0 := by
  refine ⟨by simp only [ScaleSigma]; ring_nf, fun h => ?_,
    by norm_num [ScaleSigma]⟩
  simp only [ScaleSigma]
  rw [min_eq_right h.le]
  norm_num

/-- Witness for C3's amended theorem at sigma = 600. -/
theorem scaleSigma_spec_witness : ScaleSigma 600 = ScaleSigma 500 :=
  (scaleSigma_spec 600).2.1 (by norm_num)

/-- Claim C8: a `MakeBlurSubpass` invocation whose blur sigma is below the
near-zero threshold returns the identical input texture and creates no
subpass. -/
theorem makeBlurSubpass_identity (input_texture : Texture)
    (sampler_descriptor : SamplerDescriptor) (tile_mode : TileMode)
    (blur_info : BlurInfo) (h : blur_info.blur_sigma < kEhCloseEnough) :
    MakeBlurSubpass input_texture sampler_descriptor tile_mode blur_info =
      (input_texture, 0) := by
  unfold MakeBlurSubpass
  rw [if_pos h]

/-- Witness for C8 at a concrete texture and zero sigma. -/
theorem makeBlurSubpass_identity_witness :
    MakeBlurSubpass (Texture.upstream 0 ⟨100, 1⟩)
        (MakeSamplerDescriptor .kLinear .kClampToEdge) .kClamp
        ⟨⟨0, 0⟩, 0, 0, 1⟩ =
      (Texture.upstream 0 ⟨100, 1⟩, 0) :=
  makeBlurSubpass_identity _ _ _ _ (by norm_num [kEhCloseEnough])

/-- Claim C6: `GetFilterCoverage` returns the absent (unbounded) result, not
a guessed rectangle, both for an empty input list and for a first input whose
upstream coverage is absent. -/
theorem getFilterCoverage_unbounded (rad : Scalar → Scalar)
    (sigma_x sigma_y : Scalar) (effect_transform : M4) (input : FilterInput)
    (rest : List FilterInput) (h : input.coverage = none) :
    GetFilterCoverage rad sigma_x sigma_y [] effect_transform = none ∧
    GetFilterCoverage rad sigma_x sigma_y (input :: rest) effect_transform =
      none := by
  exact ⟨rfl, by simp [GetFilterCoverage, h]⟩

/-- Witness for C6 at a concrete input with absent coverage. -/
theorem getFilterCoverage_unbounded_witness :
    GetFilterCoverage specBlurRadius 2 3 [] M4.id = none ∧
    GetFilterCoverage specBlurRadius 2 3 [emptyInput] M4.id = none :=
  getFilterCoverage_unbounded specBlurRadius 2 3 M4.id emptyInput [] rfl

theorem BlurPadding_x (rad : Scalar → Scalar) (sigma_x sigma_y : Scalar) :
    (BlurPadding rad sigma_x sigma_y).x = (⌈rad (ScaleSigma sigma_x)⌉ : Scalar) :=
  rfl

theorem BlurPadding_y (rad : Scalar → Scalar) (sigma_x sigma_y : Scalar) :
    (BlurPadding rad sigma_x sigma_y).y = (⌈rad (ScaleSigma sigma_y)⌉ : Scalar) :=
  rfl

theorem PaddedSize_x (texture_size : ISz) (padding : V2) :
    (PaddedSize texture_size padding).x =
      (texture_size.width : Scalar) + 2 * padding.x :=
  rfl

theorem PaddedSize_y (texture_size : ISz) (padding : V2) :
    (PaddedSize texture_size padding).y =
      (texture_size.height : Scalar) + 2 * padding.y :=
  rfl

theorem SubpassSize_width (texture_size : ISz) (padding : V2) (d : Scalar) :
    (SubpassSize texture_size padding d).width =
      roundHalfAway ((PaddedSize texture_size padding).x * d) :=
  rfl

theorem SubpassSize_height (texture_size : ISz) (padding : V2) (d : Scalar) :
    (SubpassSize texture_size padding d).height =
      roundHalfAway ((PaddedSize texture_size padding).y * d) :=
  rfl

/-- Claim C2: when both scaled sigmas are below the near-zero threshold and
the upstream snapshot is available, `RenderFilter` returns the input snapshot
verbatim — same image, transform, sampler descriptor and opacity — combined
only with the entity's blend mode and clip depth, and creates no subpass. -/
theorem renderFilter_fast_path (rad : Scalar → Scalar)
    (sigma_x sigma_y : Scalar) (tile_mode : TileMode) (input : FilterInput)
    (rest : List FilterInput) (entity : EntityIn) (effect_transform : M4)
    (coverage_hint : Option Rect) (snap : Snapshot)
    (hsnap : input.snapshotAt
        (ExpandCoverageHint coverage_hint (entity.transform * effect_transform)
          (BlurPadding rad sigma_x sigma_y)) = some snap)
    (hx : ScaleSigma sigma_x < kEhCloseEnough)
    (hy : ScaleSigma sigma_y < kEhCloseEnough) :
    RenderFilter rad sigma_x sigma_y tile_mode (input :: rest) entity
        effect_transform coverage_hint =
      (some ⟨snap, entity.blendMode, entity.clipDepth⟩, 0) := by
  simp only [BlurPadding] at hsnap
  simp only [RenderFilter]
  rw [hsnap]
  simp [hx, hy]

/-- Witness for C2 with zero sigmas and a concrete upstream snapshot. -/
theorem renderFilter_fast_path_witness :
    RenderFilter specBlurRadius 0 0 .kClamp [sampleInput] sampleEntity M4.id
        none =
      (some ⟨sampleSnapshot, sampleEntity.blendMode, sampleEntity.clipDepth⟩,
       0) :=
  renderFilter_fast_path specBlurRadius 0 0 .kClamp sampleInput [] sampleEntity
    M4.id none sampleSnapshot rfl (by norm_num [ScaleSigma, kEhCloseEnough])
    (by norm_num [ScaleSigma, kEhCloseEnough])

/-- Claim C7: `RenderFilter` yields the absent result exactly when the input
list is empty or the upstream collaborator produces no snapshot; in every
other case something is returned. -/
theorem renderFilter_none_iff (rad : Scalar → Scalar)
    (sigma_x sigma_y : Scalar) (tile_mode : TileMode)
    (inputs : List FilterInput) (entity : EntityIn) (effect_transform : M4)
    (coverage_hint : Option Rect) :
    (RenderFilter rad sigma_x sigma_y tile_mode inputs entity effect_transform
          coverage_hint).1 = none ↔
      (inputs = [] ∨ ∃ input rest, inputs = input :: rest ∧
        input.snapshotAt
          (ExpandCoverageHint coverage_hint
            (entity.transform * effect_transform)
            (BlurPadding rad sigma_x sigma_y)) = none) := by
  cases inputs with
  | nil => simp [RenderFilter]
  | cons input rest =>
      simp only [RenderFilter, BlurPadding]
      cases hsnap : input.snapshotAt
          (ExpandCoverageHint coverage_hint
            (entity.transform * effect_transform)
            ⟨(⌈rad (ScaleSigma sigma_x)⌉ : Scalar),
             (⌈rad (ScaleSigma sigma_y)⌉ : Scalar)⟩) with
      | none =>
          simp only [hsnap]
          constructor
          · intro _
            exact Or.inr ⟨input, rest, rfl, hsnap⟩
          · intro _
            trivial
      | some snap =>
          simp only [hsnap]
          constructor
          · intro hcontra
            by_cases hc : ScaleSigma sigma_x < kEhCloseEnough ∧
                ScaleSigma sigma_y < kEhCloseEnough
            · rw [if_pos hc] at hcontra
              exact absurd hcontra (by simp)
            · rw [if_neg hc] at hcontra
              exact absurd hcontra (by simp)
          · rintro (hnil | ⟨input2, rest2, heq, hnone⟩)
            · exact absurd hnil (by simp)
            · injection heq with h1 h2
              subst h1
              rw [hsnap] at hnone
              exact absurd hnone (by simp)

/-- Claim C1: on the general (blurring) path, the transform of the returned
output snapshot equals
`inputTransform · translate(-padding) · scale(1/effectiveScalar)` with
`padding = ceil(blur radius)` per axis and `effectiveScalar` the
integer-rounded subpass size divided by the padded texture size per axis. -/
theorem renderFilter_output_transform (rad : Scalar → Scalar)
    (sigma_x sigma_y : Scalar) (tile_mode : TileMode) (input : FilterInput)
    (rest : List FilterInput) (entity : EntityIn) (effect_transform : M4)
    (coverage_hint : Option Rect) (snap : Snapshot)
    (hsnap : input.snapshotAt
        (ExpandCoverageHint coverage_hint (entity.transform * effect_transform)
          (BlurPadding rad sigma_x sigma_y)) = some snap)
    (hblur : ¬(ScaleSigma sigma_x < kEhCloseEnough ∧
        ScaleSigma sigma_y < kEhCloseEnough)) :
    ∃ out : EntityOut,
      (RenderFilter rad sigma_x sigma_y tile_mode (input :: rest) entity
          effect_transform coverage_hint).1 = some out ∧
      out.snapshot.transform =
        snap.transform *
          makeTranslation ⟨-(BlurPadding rad sigma_x sigma_y).x,
            -(BlurPadding rad sigma_x sigma_y).y, 0⟩ *
          makeScale
            ⟨1 / (((SubpassSize snap.texture.GetSize
                      (BlurPadding rad sigma_x sigma_y)
                      (DesiredScalar sigma_x sigma_y)).width : Scalar) /
                (PaddedSize snap.texture.GetSize
                    (BlurPadding rad sigma_x sigma_y)).x),
             1 / (((SubpassSize snap.texture.GetSize
                      (BlurPadding rad sigma_x sigma_y)
                      (DesiredScalar sigma_x sigma_y)).height : Scalar) /
                (PaddedSize snap.texture.GetSize
                    (BlurPadding rad sigma_x sigma_y)).y), 1⟩ := by
  simp only [BlurPadding] at hsnap ⊢
  simp only [RenderFilter, DesiredScalar]
  simp only [hsnap]
  rw [if_neg hblur]
  exact ⟨_, rfl, rfl⟩

/-- Witness for C1 with sigma 10 and a concrete 100×1 snapshot. -/
theorem renderFilter_output_transform_witness :
    ∃ out : EntityOut,
      (RenderFilter specBlurRadius 10 10 .kClamp [sampleInput] sampleEntity
          M4.id none).1 = some out ∧
      out.snapshot.transform =
        sampleSnapshot.transform *
          makeTranslation ⟨-(BlurPadding specBlurRadius 10 10).x,
            -(BlurPadding specBlurRadius 10 10).y, 0⟩ *
          makeScale
            ⟨1 / (((SubpassSize sampleSnapshot.texture.GetSize
                      (BlurPadding specBlurRadius 10 10)
                      (DesiredScalar 10 10)).width : Scalar) /
                (PaddedSize sampleSnapshot.texture.GetSize
                    (BlurPadding specBlurRadius 10 10)).x),
             1 / (((SubpassSize sampleSnapshot.texture.GetSize
                      (BlurPadding specBlurRadius 10 10)
                      (DesiredScalar 10 10)).height : Scalar) /
                (PaddedSize sampleSnapshot.texture.GetSize
                    (BlurPadding specBlurRadius 10 10)).y), 1⟩ :=
  renderFilter_output_transform specBlurRadius 10 10 .kClamp sampleInput []
    sampleEntity M4.id none sampleSnapshot rfl
    (by norm_num [ScaleSigma, kEhCloseEnough])

theorem calculateScale_pos_le_one (s : Scalar) :
    0 < CalculateScale s ∧ CalculateScale s ≤ 1 := by
  unfold CalculateScale
  split_ifs with h
  · norm_num
  · push_neg at h
    have hs : (0 : Scalar) < s := lt_trans (by norm_num) h
    exact ⟨by positivity, by rw [div_le_one hs]; linarith⟩

theorem roundHalfAway_nonneg (q : Scalar) (h : 0 ≤ q) :
    0 ≤ roundHalfAway q := by
  unfold roundHalfAway
  rw [if_neg (not_lt.mpr h)]
  exact Int.floor_nonneg.mpr (by linarith)

theorem roundHalfAway_one_le (q : Scalar) (h : 1 / 2 ≤ q) :
    1 ≤ roundHalfAway q := by
  unfold roundHalfAway
  rw [if_neg (not_lt.mpr (le_trans (by norm_num) h))]
  refine Int.le_floor.mpr ?_
  push_cast
  linarith

/-- Claim C9 (amended): on the general path, with nonnegative blur radii and
a nonempty texture, the padding per axis equals the ceiling of the blur
radius and is nonnegative, the selected downsample scale lies in `(0, 1]`,
and the computed subpass pixel dimensions are nonnegative integers, which are
moreover positive whenever the corresponding downsampled padded extent is at
least `1/2` (they can round to zero below that, so positivity is not
unconditional). -/
theorem renderFilter_intermediate_invariants (rad : Scalar → Scalar)
    (sigma_x sigma_y : Scalar) (texture_size : ISz)
    (hrx : 0 ≤ rad (ScaleSigma sigma_x)) (hry : 0 ≤ rad (ScaleSigma sigma_y))
    (hw : 1 ≤ texture_size.width) (hh : 1 ≤ texture_size.height) :
    (BlurPadding rad sigma_x sigma_y).x =
        (⌈rad (ScaleSigma sigma_x)⌉ : Scalar) ∧
    (BlurPadding rad sigma_x sigma_y).y =
        (⌈rad (ScaleSigma sigma_y)⌉ : Scalar) ∧
    0 ≤ (BlurPadding rad sigma_x sigma_y).x ∧
    0 ≤ (BlurPadding rad sigma_x sigma_y).y ∧
    0 < DesiredScalar sigma_x sigma_y ∧ DesiredScalar sigma_x sigma_y ≤ 1 ∧
    0 ≤ (SubpassSize texture_size (BlurPadding rad sigma_x sigma_y)
          (DesiredScalar sigma_x sigma_y)).width ∧
    0 ≤ (SubpassSize texture_size (BlurPadding rad sigma_x sigma_y)
          (DesiredScalar sigma_x sigma_y)).height ∧
    (1 / 2 ≤ (PaddedSize texture_size (BlurPadding rad sigma_x sigma_y)).x *
          DesiredScalar sigma_x sigma_y →
      1 ≤ (SubpassSize texture_size (BlurPadding rad sigma_x sigma_y)
            (DesiredScalar sigma_x sigma_y)).width) ∧
    (1 / 2 ≤ (PaddedSize texture_size (BlurPadding rad sigma_x sigma_y)).y *
          DesiredScalar sigma_x sigma_y →
      1 ≤ (SubpassSize texture_size (BlurPadding rad sigma_x sigma_y)
            (DesiredScalar sigma_x sigma_y)).height) := by
  have hpx : (0 : Scalar) ≤ (BlurPadding rad sigma_x sigma_y).x := by
    rw [BlurPadding_x]
    exact_mod_cast Int.ceil_nonneg hrx
  have hpy : (0 : Scalar) ≤ (BlurPadding rad sigma_x sigma_y).y := by
    rw [BlurPadding_y]
    exact_mod_cast Int.ceil_nonneg hry
  have hd : 0 < DesiredScalar sigma_x sigma_y ∧
      DesiredScalar sigma_x sigma_y ≤ 1 := by
    unfold DesiredScalar
    constructor
    · exact lt_min (calculateScale_pos_le_one _).1 (calculateScale_pos_le_one _).1
    · exact le_trans (min_le_left _ _) (calculateScale_pos_le_one _).2
  have hwq : (1 : Scalar) ≤ (texture_size.width : Scalar) := by exact_mod_cast hw
  have hhq : (1 : Scalar) ≤ (texture_size.height : Scalar) := by exact_mod_cast hh
  have hdx : 0 ≤ (PaddedSize texture_size (BlurPadding rad sigma_x sigma_y)).x *
      DesiredScalar sigma_x sigma_y := by
    apply mul_nonneg _ hd.1.le
    rw [PaddedSize_x]
    linarith
  have hdy : 0 ≤ (PaddedSize texture_size (BlurPadding rad sigma_x sigma_y)).y *
      DesiredScalar sigma_x sigma_y := by
    apply mul_nonneg _ hd.1.le
    rw [PaddedSize_y]
    linarith
  refine ⟨BlurPadding_x rad sigma_x sigma_y, BlurPadding_y rad sigma_x sigma_y,
    hpx, hpy, hd.1, hd.2, ?_, ?_, ?_, ?_⟩
  · rw [SubpassSize_width]
    exact roundHalfAway_nonneg _ hdx
  · rw [SubpassSize_height]
    exact roundHalfAway_nonneg _ hdy
  · intro hhalf
    rw [SubpassSize_width]
    exact roundHalfAway_one_le _ hhalf
  · intro hhalf
    rw [SubpassSize_height]
    exact roundHalfAway_one_le _ hhalf

/-- Witness for C9's amended theorem at sigma (10, 0) on a 100×1 texture, the
configuration of the counterexample: the height invariant's guard fails
there, while the width is positive. -/
theorem renderFilter_intermediate_invariants_witness :
    0 < DesiredScalar 10 0 ∧ DesiredScalar 10 0 ≤ 1 ∧
    0 ≤ (SubpassSize ⟨100, 1⟩ (BlurPadding specBlurRadius 10 0)
          (DesiredScalar 10 0)).height :=
  have h := renderFilter_intermediate_invariants specBlurRadius 10 0 ⟨100, 1⟩
    (by norm_num [specBlurRadius, ScaleSigma])
    (by norm_num [specBlurRadius, ScaleSigma]) (by norm_num) (by norm_num)
  ⟨h.2.2.2.2.1, h.2.2.2.2.2.1, h.2.2.2.2.2.2.2.1⟩

/-- Claim C9, counterexample: with sigma (10, 0) on a 100×1 texture — a
general-path configuration with nonnegative sigmas and a nonempty texture —
the computed subpass pixel size is 65×0: its height is zero, not positive.
The y padding is `ceil(radius(ScaleSigma 0)) = 0` for any faithful radius
collaborator, so the downsampled height `1 · DesiredScalar 10 0 ≈ 0.414`
rounds to zero. -/
theorem subpassSize_zero_height_counterexample :
    ¬ (ScaleSigma 10 < kEhCloseEnough ∧ ScaleSigma 0 < kEhCloseEnough) ∧
    SubpassSize ⟨100, 1⟩ (BlurPadding specBlurRadius 10 0)
        (DesiredScalar 10 0) = ⟨65, 0⟩ ∧
    ¬ (0 < (SubpassSize ⟨100, 1⟩ (BlurPadding specBlurRadius 10 0)
          (DesiredScalar 10 0)).height) := by
  have hs10 : ScaleSigma 10 = 48317 / 5000 := by norm_num [ScaleSigma]
  have hs0 : ScaleSigma 0 = 0 := by norm_num [ScaleSigma]
  have hcs10 : CalculateScale (ScaleSigma 10) = 20000 / 48317 := by
    rw [hs10]
    unfold CalculateScale
    rw [if_neg (by norm_num)]
    norm_num
  have hcs0 : CalculateScale (ScaleSigma 0) = 1 := by
    rw [hs0]
    unfold CalculateScale
    rw [if_pos (by norm_num)]
  have hd : DesiredScalar 10 0 = 20000 / 48317 := by
    unfold DesiredScalar
    rw [hcs10, hcs0, min_eq_left (by norm_num)]
  have hpx : (BlurPadding specBlurRadius 10 0).x = 29 := by
    rw [BlurPadding_x, hs10]
    have hceil : ⌈(3 : Scalar) * (48317 / 5000)⌉ = (29 : ℤ) := by
      rw [Int.ceil_eq_iff] <;> norm_num
    rw [specBlurRadius, hceil]
    norm_num
  have hpy : (BlurPadding specBlurRadius 10 0).y = 0 := by
    rw [BlurPadding_y, hs0]
    norm_num [specBlurRadius]
  have hwidth : (SubpassSize ⟨100, 1⟩ (BlurPadding specBlurRadius 10 0)
      (DesiredScalar 10 0)).width = 65 := by
    rw [SubpassSize_width, PaddedSize_x, hpx, hd]
    unfold roundHalfAway
    rw [if_neg (by norm_num)]
    norm_num
  have hheight : (SubpassSize ⟨100, 1⟩ (BlurPadding specBlurRadius 10 0)
      (DesiredScalar 10 0)).height = 0 := by
    rw [SubpassSize_height, PaddedSize_y, hpy, hd]
    unfold roundHalfAway
    rw [if_neg (by norm_num)]
    norm_num
  refine ⟨?_, ?_, ?_⟩
  · intro hcon
    rw [hs10] at hcon
    exact absurd hcon.1 (by norm_num [kEhCloseEnough])
  · rw [← hwidth, ← hheight]
  · rw [hheight]
    norm_num

theorem V2.add_x (a b : V2) : (a + b).x = a.x + b.x := rfl

theorem V2.add_y (a b : V2) : (a + b).y = a.y + b.y := rfl

theorem V2.sub_x (a b : V2) : (a - b).x = a.x - b.x := rfl

theorem V2.sub_y (a b : V2) : (a - b).y = a.y - b.y := rfl

theorem V2.mul_x (a b : V2) : (a * b).x = a.x * b.x := rfl

theorem V2.mul_y (a b : V2) : (a * b).y = a.y * b.y := rfl

theorem V2.div_x (a b : V2) : (a / b).x = a.x / b.x := rfl

theorem V2.div_y (a b : V2) : (a / b).y = a.y / b.y := rfl

theorem V2.mulScalar_x (a : V2) (s : Scalar) : (a * s).x = a.x * s := rfl

theorem V2.mulScalar_y (a : V2) (s : Scalar) : (a * s).y = a.y * s := rfl

theorem V2.scalarMul_x (s : Scalar) (a : V2) : (s * a).x = s * a.x := rfl

theorem V2.scalarMul_y (s : Scalar) (a : V2) : (s * a).y = s * a.y := rfl

theorem V2.abs_x (a : V2) : a.abs.x = |a.x| := rfl

theorem V2.abs_y (a : V2) : a.abs.y = |a.y| := rfl

theorem V3.abs3_x (a : V3) : a.abs.x = |a.x| := rfl

theorem V3.abs3_y (a : V3) : a.abs.y = |a.y| := rfl

theorem M4.mul_m (A B : M4) (r c : Fin 4) :
    (A * B).m r c =
      A.m r 0 * B.m 0 c + A.m r 1 * B.m 1 c + A.m r 2 * B.m 2 c +
        A.m r 3 * B.m 3 c := rfl

theorem M4.ext_of (A B : M4) (h : ∀ r c, A.m r c = B.m r c) : A = B := by
  cases A
  cases B
  simp only [M4.mk.injEq]
  funext r c
  exact h r c

theorem transformPoint_makeAnchorScale (anchor scale p : V2) :
    (MakeAnchorScale anchor scale).transformPoint p =
      ⟨anchor.x + scale.x * (p.x - anchor.x),
       anchor.y + scale.y * (p.y - anchor.y)⟩ := by
  simp only [MakeAnchorScale, M4.transformPoint, M4.mul_m, makeTranslation,
    makeScale, m4]
  rw [V2.mk.injEq]
  norm_num
  constructor <;> ring

theorem expandPointAbout_eq (center factor p : V2) :
    ExpandPointAbout center factor p =
      ⟨center.x + factor.x * (p.x - center.x),
       center.y + factor.y * (p.y - center.y)⟩ := rfl

/-- Claim C4 (amended): the guttered UV quad sampled by the downsample pass
is the original quad expanded by the per-axis factor
`(sourceSize + 2·padding)/sourceSize` about the fixed anchor `(0.5, 0.5)` —
the center of the unit UV square — not about the quad's own center. -/
theorem downsampleGutteredUVs_expands_about_half (input_texture : Texture)
    (padding : V2) (uvs : Quad) :
    DownsampleGutteredUVs input_texture padding uvs =
      ExpandQuadAbout ⟨1 / 2, 1 / 2⟩
        ((⟨(input_texture.GetSize.width : Scalar),
            (input_texture.GetSize.height : Scalar)⟩ +
            padding * (2 : Scalar)) /
          ⟨(input_texture.GetSize.width : Scalar),
           (input_texture.GetSize.height : Scalar)⟩) uvs := by
  unfold DownsampleGutteredUVs M4.transformQuad ExpandQuadAbout
  simp only [transformPoint_makeAnchorScale, expandPointAbout_eq]

/-- Claim C4, counterexample: for a UV quad not centered at `(0.5, 0.5)` the
guttered quad differs from the quad expanded about its own center — here a
10×10 texture with padding `(1, 1)` (factor 6/5) and the unit square
translated to `[1,2]×[1,2]`, whose first corner maps to `(1.1, 1.1)` under
the source's anchor but to `(0.9, 0.9)` under expansion about the quad's own
center `(1.5, 1.5)`. -/
theorem downsampleGutteredUVs_not_quad_center :
    DownsampleGutteredUVs (Texture.upstream 0 ⟨10, 10⟩) ⟨1, 1⟩
        ⟨⟨1, 1⟩, ⟨2, 1⟩, ⟨1, 2⟩, ⟨2, 2⟩⟩ ≠
      ExpandQuadAbout
        (QuadCenter ⟨⟨1, 1⟩, ⟨2, 1⟩, ⟨1, 2⟩, ⟨2, 2⟩⟩) ⟨6 / 5, 6 / 5⟩
        ⟨⟨1, 1⟩, ⟨2, 1⟩, ⟨1, 2⟩, ⟨2, 2⟩⟩ := by
  intro h
  have h0 := congrArg (fun q => (Quad.p0 q).x) h
  simp only [DownsampleGutteredUVs, M4.transformQuad,
    transformPoint_makeAnchorScale, ExpandQuadAbout, expandPointAbout_eq,
    QuadCenter, Texture.GetSize, V2.add_x, V2.mulScalar_x, V2.div_x] at h0
  norm_num at h0

theorem M4.id_mul (A : M4) : M4.id * A = A := by
  apply M4.ext_of
  intro r c
  fin_cases r <;> simp [M4.mul_m, M4.id, m4]

theorem M4.Basis_id : M4.id.Basis = M4.id := by
  apply M4.ext_of
  intro r c
  fin_cases r <;> fin_cases c <;> rfl

theorem M4.id_transformV3 (v : V3) : M4.id.transformV3 v = v := by
  simp only [M4.transformV3, M4.id, m4]
  rw [V3.mk.injEq]
  norm_num

theorem M4.basis_transformV3 (M : M4) (v : V3) :
    M.Basis.transformV3 v =
      ⟨M.m 0 0 * v.x + M.m 0 1 * v.y + M.m 0 2 * v.z,
       M.m 1 0 * v.x + M.m 1 1 * v.y + M.m 1 2 * v.z,
       M.m 2 0 * v.x + M.m 2 1 * v.y + M.m 2 2 * v.z⟩ := by
  simp only [M4.transformV3, M4.Basis]
  rw [V3.mk.injEq]
  norm_num

/-- The bases of two matrices compose to the basis of their product whenever
the right factor carries no perspective component (as every 2-D affine
transform does). -/
theorem M4.basis_mul_basis (A B : M4) (hB : B.NoPerspective) :
    A.Basis * B.Basis = (A * B).Basis := by
  obtain ⟨h0, h1, h2, h3⟩ := hB
  apply M4.ext_of
  intro r c
  fin_cases r <;> fin_cases c <;>
    simp [M4.mul_m, M4.Basis, h0, h1, h2, h3]

/-- Claim C5: with a bounded upstream coverage and a perspective-free effect
transform, `GetFilterCoverage` returns the upstream rectangle expanded on
each side by the absolute value of the blur-radius vector transformed through
the basis of (upstream transform · effect transform); in particular, for
identity transforms it expands the rectangle by the blur radius on every
side. -/
theorem getFilterCoverage_expands_by_abs_radius (rad : Scalar → Scalar)
    (sigma_x sigma_y : Scalar) (input : FilterInput) (rest : List FilterInput)
    (effect_transform : M4) (cov : Rect) (hcov : input.coverage = some cov)
    (heff : effect_transform.NoPerspective)
    (hrx : 0 ≤ rad (ScaleSigma sigma_x))
    (hry : 0 ≤ rad (ScaleSigma sigma_y)) :
    GetFilterCoverage rad sigma_x sigma_y (input :: rest) effect_transform =
      some (cov.expand
        ⟨|((input.transform * effect_transform).Basis.transformV3
            ⟨rad (ScaleSigma sigma_x), rad (ScaleSigma sigma_y), 0⟩).x|,
         |((input.transform * effect_transform).Basis.transformV3
            ⟨rad (ScaleSigma sigma_x), rad (ScaleSigma sigma_y), 0⟩).y|⟩) ∧
    (input.transform = M4.id → effect_transform = M4.id →
      GetFilterCoverage rad sigma_x sigma_y (input :: rest) effect_transform =
        some ⟨cov.left - rad (ScaleSigma sigma_x),
              cov.top - rad (ScaleSigma sigma_y),
              cov.right + rad (ScaleSigma sigma_x),
              cov.bottom + rad (ScaleSigma sigma_y)⟩) := by
  constructor
  · simp only [GetFilterCoverage, hcov]
    rw [M4.basis_mul_basis input.transform effect_transform heff]
    rfl
  · intro h1 h2
    simp only [GetFilterCoverage, hcov, h1, h2, M4.Basis_id, M4.id_mul,
      M4.id_transformV3]
    simp [Rect.expand, V3.abs3_x, V3.abs3_y, V3.abs,
      abs_of_nonneg hrx, abs_of_nonneg hry]

/-- Witness for C5 with identity transforms, sigma (2, 3), and the rectangle
`[0,100]²`. -/
theorem getFilterCoverage_expands_witness :
    GetFilterCoverage specBlurRadius 2 3
        ({ snapshotAt := fun _ => none, coverage := some ⟨0, 0, 100, 100⟩,
           transform := M4.id, localTransform := M4.id } :: []) M4.id =
      some (Rect.expand ⟨0, 0, 100, 100⟩
        ⟨|((M4.id * M4.id).Basis.transformV3
            ⟨specBlurRadius (ScaleSigma 2), specBlurRadius (ScaleSigma 3),
             0⟩).x|,
         |((M4.id * M4.id).Basis.transformV3
            ⟨specBlurRadius (ScaleSigma 2), specBlurRadius (ScaleSigma 3),
             0⟩).y|⟩) ∧
    GetFilterCoverage specBlurRadius 2 3
        ({ snapshotAt := fun _ => none, coverage := some ⟨0, 0, 100, 100⟩,
           transform := M4.id, localTransform := M4.id } :: []) M4.id =
      some ⟨0 - specBlurRadius (ScaleSigma 2),
            0 - specBlurRadius (ScaleSigma 3),
            100 + specBlurRadius (ScaleSigma 2),
            100 + specBlurRadius (ScaleSigma 3)⟩ :=
  have h := getFilterCoverage_expands_by_abs_radius specBlurRadius 2 3
    { snapshotAt := fun _ => none, coverage := some ⟨0, 0, 100, 100⟩,
      transform := M4.id, localTransform := M4.id } [] M4.id ⟨0, 0, 100, 100⟩
    rfl (by constructor <;> norm_num [M4.id, m4, M4.NoPerspective])
    (by norm_num [specBlurRadius, ScaleSigma])
    (by norm_num [specBlurRadius, ScaleSigma])
  ⟨h.1, h.2 rfl rfl⟩

/-- Claim C10: `GetFilterSourceCoverage` transforms the blur-radius vector
through the effect transform's basis without taking absolute values, so an
effect transform with negative basis entries yields negative expansion
offsets and a rectangle smaller than the output limit — unlike
`GetFilterCoverage`, which applies an absolute value. Shown at sigma (10,10),
effect scale (-1,-1), limit `[0,100]²`. -/
theorem getFilterSourceCoverage_no_abs (rad : Scalar → Scalar)
    (h : 0 < rad (ScaleSigma 10)) :
    GetFilterSourceCoverage rad 10 10 (makeScale ⟨-1, -1, 1⟩)
        ⟨0, 0, 100, 100⟩ =
      some ⟨rad (ScaleSigma 10), rad (ScaleSigma 10),
            100 - rad (ScaleSigma 10), 100 - rad (ScaleSigma 10)⟩ ∧
    (0 : Scalar) < rad (ScaleSigma 10) ∧
    GetFilterCoverage rad 10 10
        ({ snapshotAt := fun _ => none, coverage := some ⟨0, 0, 100, 100⟩,
           transform := M4.id, localTransform := M4.id } :: [])
        (makeScale ⟨-1, -1, 1⟩) =
      some ⟨-rad (ScaleSigma 10), -rad (ScaleSigma 10),
            100 + rad (ScaleSigma 10), 100 + rad (ScaleSigma 10)⟩ := by
  refine ⟨?_, h, ?_⟩
  · simp only [GetFilterSourceCoverage, M4.basis_transformV3, makeScale, m4,
      Rect.expand]
    rw [Option.some.injEq, Rect.mk.injEq]
    norm_num
    ring
  · simp only [GetFilterCoverage, M4.Basis_id, M4.id_mul,
      M4.basis_transformV3, makeScale, m4, V3.abs, Rect.expand]
    rw [Option.some.injEq, Rect.mk.injEq]
    norm_num [abs_of_nonneg h.le]

/-- Witness for C10 with the three-sigma radius model. -/
theorem getFilterSourceCoverage_no_abs_witness :
    GetFilterSourceCoverage specBlurRadius 10 10 (makeScale ⟨-1, -1, 1⟩)
        ⟨0, 0, 100, 100⟩ =
      some ⟨specBlurRadius (ScaleSigma 10), specBlurRadius (ScaleSigma 10),
            100 - specBlurRadius (ScaleSigma 10),
            100 - specBlurRadius (ScaleSigma 10)⟩ ∧
    (0 : Scalar) < specBlurRadius (ScaleSigma 10) ∧
    GetFilterCoverage specBlurRadius 10 10
        ({ snapshotAt := fun _ => none, coverage := some ⟨0, 0, 100, 100⟩,
           transform := M4.id, localTransform := M4.id } :: [])
        (makeScale ⟨-1, -1, 1⟩) =
      some ⟨-specBlurRadius (ScaleSigma 10), -specBlurRadius (ScaleSigma 10),
            100 + specBlurRadius (ScaleSigma 10),
            100 + specBlurRadius (ScaleSigma 10)⟩ :=
  getFilterSourceCoverage_no_abs specBlurRadius
    (by norm_num [specBlurRadius, ScaleSigma])

end GaussianBlur
